import Mathlib

/-!
# Resource monitor grants

A shallow embedding of `pkg/resources/resource_monitor_grant.go`: the schema of a
resource monitor grant and its three lifecycle functions
`CreateResourceMonitorGrant`, `ReadResourceMonitorGrant`, `DeleteResourceMonitorGrant`.

The Go functions mutate a record (`*schema.ResourceData`) and talk to a remote
system through `meta`.  Here both are passed explicitly in a `State`, together with
a log of the calls the function made, in order.  The helpers the file calls but does
not define (the grant ID codec and the three generic grant steps) are fields of an
environment `Env`, so every statement about the control flow of the three functions
holds for whatever those helpers do.  A second set of definitions, each marked
`Modelled from the spec`, gives the helpers the behaviour the specification
describes.
-/

namespace snowflake

/-- Modelled from the spec: the statement builder of package `snowflake` is not part
of this file.  The specification says each statement-construction request is
"parameterized by the resource name captured at construction"; the builder is the
resource kind together with that name. -/
structure GrantBuilder where
  grantType : String
  name : String
  deriving DecidableEq, Repr

/-- Modelled from the spec: `snowflake.ResourceMonitorGrant(w)`, the builder of the
resource monitor kind for the monitor named `w`. -/
def ResourceMonitorGrant (w : String) : GrantBuilder :=
  { grantType := "RESOURCE MONITOR", name := w }

end snowflake

namespace resources

/-! ## Privilege sets -/

/-- The capital letters outside ASCII, from the simple lower-case mapping of the
Unicode Character Database (version 14), which `unicode.ToLower` of the Go standard
library applies.  An entry `(lo, hi, step, lower)` says that the code points `lo`,
`lo + step`, ..., `hi` lower to `lower`, `lower + step`, ... -/
def lowerRanges : List (Nat × Nat × Nat × Nat) :=
  [
    (192, 214, 1, 224), (216, 222, 1, 248), (256, 302, 2, 257), (304, 304, 1, 105),
    (306, 310, 2, 307), (313, 327, 2, 314), (330, 374, 2, 331), (376, 376, 1, 255),
    (377, 381, 2, 378), (385, 385, 1, 595), (386, 388, 2, 387), (390, 390, 1, 596),
    (391, 391, 1, 392), (393, 394, 1, 598), (395, 395, 1, 396), (398, 398, 1, 477),
    (399, 399, 1, 601), (400, 400, 1, 603), (401, 401, 1, 402), (403, 403, 1, 608),
    (404, 404, 1, 611), (406, 406, 1, 617), (407, 407, 1, 616), (408, 408, 1, 409),
    (412, 412, 1, 623), (413, 413, 1, 626), (415, 415, 1, 629), (416, 420, 2, 417),
    (422, 422, 1, 640), (423, 423, 1, 424), (425, 425, 1, 643), (428, 428, 1, 429),
    (430, 430, 1, 648), (431, 431, 1, 432), (433, 434, 1, 650), (435, 437, 2, 436),
    (439, 439, 1, 658), (440, 440, 1, 441), (444, 444, 1, 445), (452, 452, 1, 454),
    (453, 453, 1, 454), (455, 455, 1, 457), (456, 456, 1, 457), (458, 458, 1, 460),
    (459, 475, 2, 460), (478, 494, 2, 479), (497, 497, 1, 499), (498, 500, 2, 499),
    (502, 502, 1, 405), (503, 503, 1, 447), (504, 542, 2, 505), (544, 544, 1, 414),
    (546, 562, 2, 547), (570, 570, 1, 11365), (571, 571, 1, 572), (573, 573, 1, 410),
    (574, 574, 1, 11366), (577, 577, 1, 578), (579, 579, 1, 384), (580, 580, 1, 649),
    (581, 581, 1, 652), (582, 590, 2, 583), (880, 882, 2, 881), (886, 886, 1, 887),
    (895, 895, 1, 1011), (902, 902, 1, 940), (904, 906, 1, 941), (908, 908, 1, 972),
    (910, 911, 1, 973), (913, 929, 1, 945), (931, 939, 1, 963), (975, 975, 1, 983),
    (984, 1006, 2, 985), (1012, 1012, 1, 952), (1015, 1015, 1, 1016), (1017, 1017, 1, 1010),
    (1018, 1018, 1, 1019), (1021, 1023, 1, 891), (1024, 1039, 1, 1104), (1040, 1071, 1, 1072),
    (1120, 1152, 2, 1121), (1162, 1214, 2, 1163), (1216, 1216, 1, 1231), (1217, 1229, 2, 1218),
    (1232, 1326, 2, 1233), (1329, 1366, 1, 1377), (4256, 4293, 1, 11520), (4295, 4295, 1, 11559),
    (4301, 4301, 1, 11565), (5024, 5103, 1, 43888), (5104, 5109, 1, 5112), (7312, 7354, 1, 4304),
    (7357, 7359, 1, 4349), (7680, 7828, 2, 7681), (7838, 7838, 1, 223), (7840, 7934, 2, 7841),
    (7944, 7951, 1, 7936), (7960, 7965, 1, 7952), (7976, 7983, 1, 7968), (7992, 7999, 1, 7984),
    (8008, 8013, 1, 8000), (8025, 8025, 1, 8017), (8027, 8027, 1, 8019), (8029, 8029, 1, 8021),
    (8031, 8031, 1, 8023), (8040, 8047, 1, 8032), (8072, 8079, 1, 8064), (8088, 8095, 1, 8080),
    (8104, 8111, 1, 8096), (8120, 8121, 1, 8112), (8122, 8123, 1, 8048), (8124, 8124, 1, 8115),
    (8136, 8139, 1, 8050), (8140, 8140, 1, 8131), (8152, 8153, 1, 8144), (8154, 8155, 1, 8054),
    (8168, 8169, 1, 8160), (8170, 8171, 1, 8058), (8172, 8172, 1, 8165), (8184, 8185, 1, 8056),
    (8186, 8187, 1, 8060), (8188, 8188, 1, 8179), (8486, 8486, 1, 969), (8490, 8490, 1, 107),
    (8491, 8491, 1, 229), (8498, 8498, 1, 8526), (8544, 8559, 1, 8560), (8579, 8579, 1, 8580),
    (9398, 9423, 1, 9424), (11264, 11311, 1, 11312), (11360, 11360, 1, 11361), (11362, 11362, 1, 619),
    (11363, 11363, 1, 7549), (11364, 11364, 1, 637), (11367, 11371, 2, 11368), (11373, 11373, 1, 593),
    (11374, 11374, 1, 625), (11375, 11375, 1, 592), (11376, 11376, 1, 594), (11378, 11378, 1, 11379),
    (11381, 11381, 1, 11382), (11390, 11391, 1, 575), (11392, 11490, 2, 11393), (11499, 11501, 2, 11500),
    (11506, 11506, 1, 11507), (42560, 42604, 2, 42561), (42624, 42650, 2, 42625), (42786, 42798, 2, 42787),
    (42802, 42862, 2, 42803), (42873, 42875, 2, 42874), (42877, 42877, 1, 7545), (42878, 42886, 2, 42879),
    (42891, 42891, 1, 42892), (42893, 42893, 1, 613), (42896, 42898, 2, 42897), (42902, 42920, 2, 42903),
    (42922, 42922, 1, 614), (42923, 42923, 1, 604), (42924, 42924, 1, 609), (42925, 42925, 1, 620),
    (42926, 42926, 1, 618), (42928, 42928, 1, 670), (42929, 42929, 1, 647), (42930, 42930, 1, 669),
    (42931, 42931, 1, 43859), (42932, 42946, 2, 42933), (42948, 42948, 1, 42900), (42949, 42949, 1, 642),
    (42950, 42950, 1, 7566), (42951, 42953, 2, 42952), (42960, 42960, 1, 42961), (42966, 42968, 2, 42967),
    (42997, 42997, 1, 42998), (65313, 65338, 1, 65345), (66560, 66599, 1, 66600), (66736, 66771, 1, 66776),
    (66928, 66938, 1, 66967), (66940, 66954, 1, 66979), (66956, 66962, 1, 66995), (66964, 66965, 1, 67003),
    (68736, 68786, 1, 68800), (71840, 71871, 1, 71872), (93760, 93791, 1, 93792), (125184, 125217, 1, 125218) ]

/-- Whether an entry of `lowerRanges` covers a code point. -/
def inRange (n : Nat) (e : Nat × Nat × Nat × Nat) : Bool :=
  decide (e.1 ≤ n) && decide (n ≤ e.2.1) && decide ((n - e.1) % e.2.2.1 = 0)

/-- The lower-case form of a code point outside ASCII: that of its entry in
`lowerRanges`, and the code point itself when no entry covers it. -/
def lowerCodePoint (n : Nat) : Nat :=
  match lowerRanges.find? (inRange n) with
  | some e => e.2.2.2 + (n - e.1)
  | none => n

/-- The function `unicode.ToLower` of the Go standard library: ASCII capitals are
moved to the small letters, other ASCII characters stay, and a character outside
ASCII is lowered by the Unicode mapping. -/
def lowerChar (c : Char) : Char :=
  if c.toNat < 128 then
    if 65 ≤ c.toNat ∧ c.toNat ≤ 90 then Char.ofNat (c.toNat + 32) else c
  else Char.ofNat (lowerCodePoint c.toNat)

/-- The function `strings.ToLower`: every character is lowered by
`unicode.ToLower`. -/
def toLower (s : String) : String := String.mk (s.data.map lowerChar)

/-- What the lemmas about `lowerRanges` need of an entry: it lowers to a code
point outside ASCII, unless it is the entry of U+0130 or of U+212A, and the code
points it lowers to are Unicode scalar values. -/
def rangeSound (e : Nat × Nat × Nat × Nat) : Bool :=
  (decide (128 ≤ e.2.2.2) || decide (e = (304, 304, 1, 105)) ||
    decide (e = (8490, 8490, 1, 107))) &&
  (decide (e.2.2.2 + (e.2.1 - e.1) < 55296) ||
    (decide (57343 < e.2.2.2) && decide (e.2.2.2 + (e.2.1 - e.1) < 1114112)))

/-- Modelled from the spec: the privilege tokens `privilegeAll`, `privilegeModify`,
`privilegeMonitor` are declared outside this file; the specification names the
privileges of a resource kind as "MONITOR, MODIFY, ALL". -/
def privilegeAll : String := "ALL"

/-- Modelled from the spec: see `privilegeAll`. -/
def privilegeModify : String := "MODIFY"

/-- Modelled from the spec: see `privilegeAll`; the specification gives "MONITOR" as
the default privilege of the resource monitor kind. -/
def privilegeMonitor : String := "MONITOR"

/-- Modelled from the spec: a privilege set is "an ordered, deduplicated collection of
recognized privilege names"; its declaration is outside this file. -/
structure PrivilegeSet where
  tokens : List String
  deriving DecidableEq, Repr

/-- Modelled from the spec: one step of `newPrivilegeSet`; tokens are added in the
order given, and a token equal, ignoring case, to one already present is dropped. -/
def insertToken (acc : List String) (p : String) : List String :=
  if acc.any (fun q => toLower q == toLower p) then acc else acc ++ [p]

/-- Modelled from the spec: `newPrivilegeSet` "builds a set from zero or more privilege
tokens", deduplicating silently and case-insensitively, keeping insertion order. -/
def newPrivilegeSet (privileges : List String) : PrivilegeSet :=
  { tokens := privileges.foldl insertToken [] }

/-- Modelled from the spec: `toList` "returns all tokens in insertion order". -/
def PrivilegeSet.toList (ps : PrivilegeSet) : List String := ps.tokens

/-- Modelled from the spec: `contains` is a "case-insensitive membership test". -/
def PrivilegeSet.contains (ps : PrivilegeSet) (token : String) : Bool :=
  ps.tokens.any (fun q => toLower q == toLower token)

/-- The privilege set of the resource monitor kind (lines 9-13). -/
def validResourceMonitorPrivileges : PrivilegeSet :=
  newPrivilegeSet [privilegeAll, privilegeModify, privilegeMonitor]

/-! ## The schema -/

/-- The value types a schema field can have. -/
inductive ValueType where
  | TypeString
  | TypeBool
  | TypeSet
  deriving DecidableEq, Repr

/-- A value stored in, or written to, a field of a record. -/
inductive Value where
  | str (s : String)
  | bool (b : Bool)
  | strs (xs : List String)
  deriving DecidableEq, Repr

/-- The validator `validation.StringInSlice(valid, ignoreCase)` of the plugin SDK:
it accepts `v` when `v` equals an element of `valid`, or, with `ignoreCase`, when
`strings.ToLower` gives the same string for the two. -/
def StringInSlice (valid : List String) (ignoreCase : Bool) (v : String) : Bool :=
  valid.any (fun str => v == str || (ignoreCase && toLower v == toLower str))

/-- One entry of a schema map: the attributes the file sets; an attribute it
does not set has the zero value (`false`, `none`). -/
structure Schema where
  type : ValueType
  Required : Bool := false
  Optional : Bool := false
  Description : String := ""
  Default : Option Value := none
  ValidateFunc : Option (String → Bool) := none
  Elem : Option ValueType := none
  ForceNew : Bool := false

/-- The schema of a resource monitor grant (lines 15-44), as the list of its
entries in the order they are written. -/
def resourceMonitorGrantSchema : List (String × Schema) :=
  [ ("monitor_name",
      { type := .TypeString
        Required := true
        Description := "Identifier for the resource monitor; must be unique for your account."
        ForceNew := true }),
    ("privilege",
      { type := .TypeString
        Optional := true
        Description := "The privilege to grant on the resource monitor."
        Default := some (.str "MONITOR")
        ValidateFunc := some (StringInSlice validResourceMonitorPrivileges.toList true)
        ForceNew := true }),
    ("roles",
      { type := .TypeSet
        Elem := some .TypeString
        Optional := true
        Description := "Grants privilege to these roles."
        ForceNew := true }),
    ("with_grant_option",
      { type := .TypeBool
        Optional := true
        Description := "When this is set to true, allows the recipient role to grant the privileges to other roles."
        Default := some (.bool false)
        ForceNew := true }) ]

/-- Look a field up in a schema map. -/
def lookupField (m : List (String × Schema)) (key : String) : Option Schema :=
  (m.find? (fun kv => kv.1 == key)).map Prod.snd

/-! ## Errors and grant identities -/

deriving instance DecidableEq for Except

/-- The errors the lifecycle functions can return: the four kinds of the
specification's taxonomy, and the error of a failed write to a record field. -/
inductive GrantError where
  | InvalidPrivilegeError (msg : String)
  | MalformedIDError (msg : String)
  | EncodingError (msg : String)
  | RemoteExecutionError (msg : String)
  | SetError (msg : String)
  deriving DecidableEq, Repr

/-- Modelled from the spec: the identity of a grant, whose declaration is outside
this file.  The file fills in `ResourceName`, `Privilege` and `GrantOption`
(lines 69-73) and reads them back (lines 89-100); the specification gives the
identity one more attribute, an "optional ordered set of role names".  A field that
is not filled in has the zero value. -/
structure grantID where
  ResourceName : String := ""
  Privilege : String := ""
  GrantOption : Bool := false
  Roles : List String := []
  deriving DecidableEq, Repr

/-! ## The grant ID codec, modelled from the specification -/

/-- Modelled from the spec: the field delimiter of a grant ID. -/
def grantIDDelimiter : Char := '|'

/-- Modelled from the spec: the character that introduces the escape sequence of a
delimiter inside a field; the specification leaves the sequence open. -/
def grantIDEscape : Char := '\\'

/-- Modelled from the spec: "any field value containing the delimiter must be escaped
such that decode reverses it exactly".  The codec is outside this file and the
specification leaves the escape sequence open; here a delimiter or an escape
character inside a field is preceded by the escape character. -/
def escapeField : List Char → List Char
  | [] => []
  | c :: cs =>
    if c = grantIDDelimiter ∨ c = grantIDEscape then grantIDEscape :: c :: escapeField cs
    else c :: escapeField cs

/-- Modelled from the spec: the "delimited fields" of a grant ID: the escaped fields,
separated by the delimiter. -/
def joinFields : List (List Char) → List Char
  | [] => []
  | [f] => escapeField f
  | f :: g :: fs => escapeField f ++ grantIDDelimiter :: joinFields (g :: fs)

/-- Modelled from the spec: part of the decoder; a character is put in front of the
first field of a field list. -/
def pushChar (c : Char) : List (List Char) → List (List Char)
  | [] => [[c]]
  | f :: fs => (c :: f) :: fs

/-- Modelled from the spec: part of the decoder; a grant ID is split at its unescaped
delimiters and the escapes are undone.  The result is `none` when an escape
character is followed by nothing or by a character that needs no escape. -/
def splitFields : List Char → Option (List (List Char))
  | [] => some [[]]
  | [c] =>
    if c = grantIDEscape then none
    else if c = grantIDDelimiter then some [[], []]
    else some [[c]]
  | c :: e :: rest =>
    if c = grantIDEscape then
      if e = grantIDDelimiter ∨ e = grantIDEscape then (splitFields rest).map (pushChar e)
      else none
    else if c = grantIDDelimiter then (splitFields (e :: rest)).map (fun fs => [] :: fs)
    else (splitFields (e :: rest)).map (pushChar c)

/-- Modelled from the spec: the text of the grant-option field, `true` or `false`. -/
def formatBool (b : Bool) : String := if b then "true" else "false"

/-- Modelled from the spec: the grant-option field read back; a text other than
`true` and `false` "cannot be parsed". -/
def parseBool (s : List Char) : Option Bool :=
  if s = "true".data then some true
  else if s = "false".data then some false
  else none

/-- Modelled from the spec: `grant.String()`, the encoder of the codec, which is
outside this file.  The specification gives the format
`<resourceName>|<privilege>|<grantOption:true/false>[|<role>]*` with the delimiter
escaped inside fields.  With the escape of `escapeField` every field can be
escaped, so this encoder returns no `EncodingError`. -/
def grantID.String (gi : grantID) : Except GrantError String :=
  .ok (String.mk (joinFields
    ([gi.ResourceName.data, gi.Privilege.data, (formatBool gi.GrantOption).data]
      ++ gi.Roles.map (fun r => r.data))))

/-- Modelled from the spec: `grantIDFromString`, the decoder of the codec, which is
outside this file.  It "fails with `MalformedIDError` when the field count does not
match the expected schema version, or when a boolean field cannot be parsed". -/
def grantIDFromString (stringID : String) : Except GrantError grantID :=
  match splitFields stringID.data with
  | none => .error (.MalformedIDError "bad escape sequence")
  | some (name :: priv :: opt :: roles) =>
    match parseBool opt with
    | none => .error (.MalformedIDError "grant option is not a boolean")
    | some b =>
      .ok { ResourceName := String.mk name
            Privilege := String.mk priv
            GrantOption := b
            Roles := roles.map String.mk }
  | some _ => .error (.MalformedIDError "wrong number of fields")

/-! ## Records, collaborators and the call log -/

/-- The record a lifecycle function works on (`*schema.ResourceData`): its ID and
the four fields of the schema.  An unset ID is the empty string. -/
structure ResourceData where
  id : String := ""
  monitor_name : String := ""
  privilege : String := ""
  roles : List String := []
  with_grant_option : Bool := false
  deriving DecidableEq, Repr

/-- The result of `data.SetId(v)`. -/
def ResourceData.SetId (d : ResourceData) (v : String) : ResourceData :=
  { d with id := v }

/-- The record after a write of `value` to the field `key`, or `none` when the
schema has no such field of that type. -/
def ResourceData.write (d : ResourceData) (key : String) (value : Value) : Option ResourceData :=
  match value with
  | .str s =>
    if key = "monitor_name" then some { d with monitor_name := s }
    else if key = "privilege" then some { d with privilege := s }
    else none
  | .bool b => if key = "with_grant_option" then some { d with with_grant_option := b } else none
  | .strs xs => if key = "roles" then some { d with roles := xs } else none

/-- The helpers the file calls and does not define, over a remote system of type
`W` (what `meta` gives access to).  A generic grant step receives the record and
the remote system and returns its error, if any, with the record and the remote
system as it leaves them.  `setFault` says when a write to a record field fails
inside the SDK. -/
structure Env (W : Type) where
  createGenericGrant : ResourceData → W → snowflake.GrantBuilder →
    Option GrantError × ResourceData × W
  readGenericGrant : ResourceData → W → List (String × Schema) → snowflake.GrantBuilder →
    Bool → PrivilegeSet → Option GrantError × ResourceData × W
  deleteGenericGrant : ResourceData → W → snowflake.GrantBuilder →
    Option GrantError × ResourceData × W
  grantIDString : grantID → Except GrantError String
  grantIDFromString : String → Except GrantError grantID
  setFault : ResourceData → String → Value → Option GrantError

/-- One entry of the call log: a call of a helper, or a write to the record. -/
inductive Call where
  | createGenericGrant (builder : snowflake.GrantBuilder)
  | grantIDString (gi : grantID)
  | SetId (v : String)
  | grantIDFromString (stringID : String)
  | Set (key : String) (value : Value)
  | readGenericGrant (builder : snowflake.GrantBuilder) (futureObjects : Bool)
      (validPrivileges : PrivilegeSet)
  | deleteGenericGrant (builder : snowflake.GrantBuilder)
  deriving DecidableEq, Repr

/-- What a lifecycle function sees and changes: the record, the remote system,
and the log of the calls made so far. -/
structure State (W : Type) where
  data : ResourceData
  meta : W
  calls : List Call := []

/-- The call `data.Set(key, value)`: it is logged; it fails, leaving the record as
it is, when the SDK reports a fault or the field does not take the value. -/
def State.Set {W : Type} (env : Env W) (s : State W) (key : String) (value : Value) :
    Option GrantError × State W :=
  let s1 : State W := { s with calls := s.calls ++ [Call.Set key value] }
  match env.setFault s.data key value with
  | some err => (some err, s1)
  | none =>
    match s.data.write key value with
    | none => (some (.SetError key), s1)
    | some d => (none, { s1 with data := d })

/-! ## The lifecycle functions -/

/-- The function `ReadResourceMonitorGrant` (lines 84-107). -/
def ReadResourceMonitorGrant {W : Type} (env : Env W) (s : State W) :
    Option GrantError × State W :=
  let s0 : State W := { s with calls := s.calls ++ [Call.grantIDFromString s.data.id] }
  match env.grantIDFromString s.data.id with
  | .error err => (some err, s0)
  | .ok grantID =>
    let w := grantID.ResourceName
    let priv := grantID.Privilege
    match s0.Set env "monitor_name" (.str w) with
    | (some err, s1) => (some err, s1)
    | (none, s1) =>
      match s1.Set env "privilege" (.str priv) with
      | (some err, s2) => (some err, s2)
      | (none, s2) =>
        match s2.Set env "with_grant_option" (.bool grantID.GrantOption) with
        | (some err, s3) => (some err, s3)
        | (none, s3) =>
          let builder := snowflake.ResourceMonitorGrant w
          match env.readGenericGrant s3.data s3.meta resourceMonitorGrantSchema builder false
              validResourceMonitorPrivileges with
          | (err, d, m) =>
            (err, { data := d, meta := m,
                    calls := s3.calls ++
                      [Call.readGenericGrant builder false validResourceMonitorPrivileges] })

/-- The function `CreateResourceMonitorGrant` (lines 58-81). -/
def CreateResourceMonitorGrant {W : Type} (env : Env W) (s : State W) :
    Option GrantError × State W :=
  let w := s.data.monitor_name
  let priv := s.data.privilege
  let grantOption := s.data.with_grant_option
  let builder := snowflake.ResourceMonitorGrant w
  match env.createGenericGrant s.data s.meta builder with
  | (some err, d, m) =>
    (some err, { data := d, meta := m, calls := s.calls ++ [Call.createGenericGrant builder] })
  | (none, d, m) =>
    let grant : grantID := { ResourceName := w, Privilege := priv, GrantOption := grantOption }
    let calls := s.calls ++ [Call.createGenericGrant builder, Call.grantIDString grant]
    match env.grantIDString grant with
    | .error err => (some err, { data := d, meta := m, calls := calls })
    | .ok dataIDInput =>
      ReadResourceMonitorGrant env
        { data := d.SetId dataIDInput, meta := m, calls := calls ++ [Call.SetId dataIDInput] }

/-- The function `DeleteResourceMonitorGrant` (lines 110-120). -/
def DeleteResourceMonitorGrant {W : Type} (env : Env W) (s : State W) :
    Option GrantError × State W :=
  let s0 : State W := { s with calls := s.calls ++ [Call.grantIDFromString s.data.id] }
  match env.grantIDFromString s.data.id with
  | .error err => (some err, s0)
  | .ok grantID =>
    let w := grantID.ResourceName
    let builder := snowflake.ResourceMonitorGrant w
    match env.deleteGenericGrant s0.data s0.meta builder with
    | (err, d, m) =>
      (err, { data := d, meta := m, calls := s0.calls ++ [Call.deleteGenericGrant builder] })

/-- The type of a lifecycle function. -/
abbrev LifecycleFunc (W : Type) : Type := Env W → State W → Option GrantError × State W

/-- A resource of the plugin SDK: its lifecycle functions and its schema.  A
function the resource does not define is `none`. -/
structure Resource (W : Type) where
  Create : Option (LifecycleFunc W) := none
  Read : Option (LifecycleFunc W) := none
  Update : Option (LifecycleFunc W) := none
  Delete : Option (LifecycleFunc W) := none
  Schema : List (String × Schema) := []

/-- The function `ResourceMonitorGrant` (lines 47-55): the resource representing a
resource monitor grant. -/
def ResourceMonitorGrant (W : Type) : Resource W :=
  { Create := some CreateResourceMonitorGrant
    Read := some ReadResourceMonitorGrant
    Delete := some DeleteResourceMonitorGrant
    Schema := resourceMonitorGrantSchema }

/-! ## The generic grant protocol, modelled from the specification -/

/-- Modelled from the spec: the statements sent to the remote system, which the
statement builder (outside this file) produces: GRANT, REVOKE and SHOW GRANTS on
the object the builder was made for. -/
inductive Statement where
  | GRANT (builder : snowflake.GrantBuilder) (privilege : String) (grantOption : Bool)
      (role : String)
  | REVOKE (builder : snowflake.GrantBuilder) (privilege : String) (role : String)
  | SHOW_GRANTS (builder : snowflake.GrantBuilder)
  deriving DecidableEq, Repr

/-- Modelled from the spec: one row of the remote system's grant table: a role
holding a privilege on an object, with its "can re-grant" indicator. -/
structure GrantRow where
  object : String
  privilege : String
  role : String
  grantOption : Bool
  deriving DecidableEq, Repr

/-- Modelled from the spec: the remote access-control system: the objects that
exist, the grants it holds, and the statements it has executed, oldest first. -/
structure World where
  objects : List String := []
  rows : List GrantRow := []
  executed : List Statement := []
  deriving DecidableEq, Repr

/-- Modelled from the spec: execution of one GRANT statement; it fails with
`RemoteExecutionError` when the object is not found. -/
def execGrant (builder : snowflake.GrantBuilder) (privilege : String) (grantOption : Bool)
    (role : String) (m : World) : Option GrantError × World :=
  if m.objects.contains builder.name then
    (none, { m with
      rows := m.rows ++ [{ object := builder.name, privilege := privilege, role := role,
                           grantOption := grantOption }]
      executed := m.executed ++ [Statement.GRANT builder privilege grantOption role] })
  else (some (.RemoteExecutionError "object not found"), m)

/-- Modelled from the spec: the GRANT statement is executed "for each role in
`roles`"; the loop stops "on the first failing role" and statements already
executed "are NOT rolled back". -/
def grantRoles (builder : snowflake.GrantBuilder) (privilege : String) (grantOption : Bool) :
    List String → World → Option GrantError × World
  | [], m => (none, m)
  | role :: rest, m =>
    match execGrant builder privilege grantOption role m with
    | (some err, m1) => (some err, m1)
    | (none, m1) => grantRoles builder privilege grantOption rest m1

/-- Modelled from the spec: `createGenericGrant`, steps 2 and 3 of Create in the
Generic Grant Protocol.  The step is outside this file; it is called with the
record, `meta` and the builder only (line 64), without a privilege set. -/
def createGenericGrant (data : ResourceData) (m : World) (builder : snowflake.GrantBuilder) :
    Option GrantError × ResourceData × World :=
  match grantRoles builder data.privilege data.with_grant_option data.roles m with
  | (err, m1) => (err, data, m1)

/-- Modelled from the spec: whether a row of the grant table counts for a privilege:
the privileges are equal, or the privilege asked for is the "all" sentinel. -/
def rowMatches (object privilege : String) (row : GrantRow) : Bool :=
  row.object == object && (row.privilege == privilege || privilege == privilegeAll)

/-- Modelled from the spec: `readGenericGrant`, steps 2 to 5 of Read in the Generic
Grant Protocol; the step is outside this file.  SHOW GRANTS is executed; when the
object no longer exists the record is absent (its ID is cleared), which is not an
error; otherwise the roles of the record that hold no matching grant remotely
are dropped, and the grant-option flag is left at its last known value. -/
def readGenericGrant (data : ResourceData) (m : World) (_schema : List (String × Schema))
    (builder : snowflake.GrantBuilder) (_futureObjects : Bool) (_validPrivileges : PrivilegeSet) :
    Option GrantError × ResourceData × World :=
  let m1 : World := { m with executed := m.executed ++ [Statement.SHOW_GRANTS builder] }
  if m.objects.contains builder.name then
    let held := (m.rows.filter (rowMatches builder.name data.privilege)).map (fun row => row.role)
    (none, { data with roles := data.roles.filter (fun r => held.contains r) }, m1)
  else (none, data.SetId "", m1)

/-- Modelled from the spec: execution of one REVOKE statement; a grant that is
already absent is a success, a missing object is a `RemoteExecutionError`. -/
def execRevoke (builder : snowflake.GrantBuilder) (privilege : String) (role : String)
    (m : World) : Option GrantError × World :=
  if m.objects.contains builder.name then
    (none, { m with
      rows := m.rows.filter (fun row =>
        !(row.object == builder.name && row.privilege == privilege && row.role == role))
      executed := m.executed ++ [Statement.REVOKE builder privilege role] })
  else (some (.RemoteExecutionError "object not found"), m)

/-- Modelled from the spec: the REVOKE statement is executed "once per known role",
stopping at the first failure. -/
def revokeRoles (builder : snowflake.GrantBuilder) (privilege : String) :
    List String → World → Option GrantError × World
  | [], m => (none, m)
  | role :: rest, m =>
    match execRevoke builder privilege role m with
    | (some err, m1) => (some err, m1)
    | (none, m1) => revokeRoles builder privilege rest m1

/-- Modelled from the spec: `deleteGenericGrant`, steps 2 to 4 of Delete in the Generic
Grant Protocol; the step is outside this file. -/
def deleteGenericGrant (data : ResourceData) (m : World) (builder : snowflake.GrantBuilder) :
    Option GrantError × ResourceData × World :=
  match revokeRoles builder data.privilege data.roles m with
  | (err, m1) => (err, data, m1)

/-- Modelled from the spec: the helpers as the specification describes them: the
codec and the generic grant protocol above, with writes to the record that never
fail in the SDK. -/
def specEnv : Env World :=
  { createGenericGrant := createGenericGrant
    readGenericGrant := readGenericGrant
    deleteGenericGrant := deleteGenericGrant
    grantIDString := grantID.String
    grantIDFromString := grantIDFromString
    setFault := fun _ _ _ => none }

/-- The request of the specification's end-to-end scenario: privilege MONITOR on
WH_MONITOR for the role ANALYST, without grant option. -/
def scenarioData : ResourceData :=
  { monitor_name := "WH_MONITOR", privilege := "MONITOR", roles := ["ANALYST"],
    with_grant_option := false }

/-- A remote system in which the resource monitor WH_MONITOR exists and nothing
has been granted yet. -/
def scenarioWorld : World := { objects := ["WH_MONITOR"] }

/-! ## Vocabulary of the statements -/

/-- The grant identity `CreateResourceMonitorGrant` builds from a record
(lines 69-73): name, privilege and grant option; the role list is not filled in. -/
def createdID (d : ResourceData) : grantID :=
  { ResourceName := d.monitor_name, Privilege := d.privilege, GrantOption := d.with_grant_option }

/-- The record after the three writes of a read that decoded `gi`. -/
def decodedData (d : ResourceData) (gi : grantID) : ResourceData :=
  { d with monitor_name := gi.ResourceName, privilege := gi.Privilege,
           with_grant_option := gi.GrantOption }

/-- The calls a read makes, in order, when nothing fails. -/
def readCalls (stringID : String) (gi : grantID) : List Call :=
  [ Call.grantIDFromString stringID,
    Call.Set "monitor_name" (.str gi.ResourceName),
    Call.Set "privilege" (.str gi.Privilege),
    Call.Set "with_grant_option" (.bool gi.GrantOption),
    Call.readGenericGrant (snowflake.ResourceMonitorGrant gi.ResourceName) false
      validResourceMonitorPrivileges ]

/-- The SDK lets the three writes of a read through. -/
def writesSucceed {W : Type} (env : Env W) (d : ResourceData) (gi : grantID) : Prop :=
  env.setFault d "monitor_name" (.str gi.ResourceName) = none ∧
  env.setFault { d with monitor_name := gi.ResourceName } "privilege" (.str gi.Privilege) = none ∧
  env.setFault { d with monitor_name := gi.ResourceName, privilege := gi.Privilege }
    "with_grant_option" (.bool gi.GrantOption) = none

instance {W : Type} (env : Env W) (d : ResourceData) (gi : grantID) :
    Decidable (writesSucceed env d gi) := by
  unfold writesSucceed
  infer_instance

/-- The calls a function added to the log of the state it started from. -/
def newCalls {W : Type} (s : State W) (r : Option GrantError × State W) : List Call :=
  r.2.calls.drop s.calls.length

/-- A generic read step leaves the name, the privilege and the grant-option flag
of the record as it finds them. -/
def readKeepsIdentity {W : Type} (env : Env W) : Prop :=
  ∀ (d : ResourceData) (m : W) (b : snowflake.GrantBuilder),
    (env.readGenericGrant d m resourceMonitorGrantSchema b false
        validResourceMonitorPrivileges).2.1.monitor_name = d.monitor_name ∧
    (env.readGenericGrant d m resourceMonitorGrantSchema b false
        validResourceMonitorPrivileges).2.1.privilege = d.privilege ∧
    (env.readGenericGrant d m resourceMonitorGrantSchema b false
        validResourceMonitorPrivileges).2.1.with_grant_option = d.with_grant_option

/-- An ASCII capital letter and its small letter. -/
def casePair (c d : Char) : Bool :=
  decide (65 ≤ c.toNat ∧ c.toNat ≤ 90 ∧ d.toNat = c.toNat + 32)

/-- Two characters that are equal ignoring letter case: the same character, or a
capital letter and its small letter. -/
def sameLetter (c d : Char) : Bool :=
  decide (c = d) || casePair c d || casePair d c

/-- The two characters outside ASCII that lower to an ASCII letter, with that
letter in either case: U+0130 (capital I with dot above) lowers to `i`, and
U+212A (the Kelvin sign) lowers to `k`. -/
def lowersToLetter (c d : Char) : Bool :=
  (decide (c.toNat = 304) && (decide (d = 'I') || decide (d = 'i'))) ||
  (decide (c.toNat = 8490) && (decide (d = 'K') || decide (d = 'k')))

/-- Two texts of the same length whose characters are related, place by place. -/
def matchesWith (r : Char → Char → Bool) : List Char → List Char → Bool
  | [], [] => true
  | c :: cs, d :: ds => r c d && matchesWith r cs ds
  | _, _ => false

/-- Two strings that are equal ignoring letter case. -/
def equalsIgnoringCase (v t : String) : Bool := matchesWith sameLetter v.data t.data

/-- Two strings that are equal ignoring letter case when, in the first, U+0130 may
stand for an I and U+212A for a K. -/
def equalsAfterLowering (v t : String) : Bool :=
  matchesWith (fun c d => sameLetter c d || lowersToLetter c d) v.data t.data

/-- The helpers of `specEnv` with an encoder that fails on every identity. -/
def failingEncoderEnv : Env World :=
  { specEnv with grantIDString := fun _ => .error (.EncodingError "field cannot be escaped") }

/-- The helpers of `specEnv` with an SDK that refuses every write to `privilege`. -/
def faultyWriteEnv : Env World :=
  { specEnv with
    setFault := fun _ key _ =>
      if key = "privilege" then some (.SetError "privilege") else none }

end resources

namespace resources

/-! ## The codec: decoding reverses encoding -/

theorem splitFields_plain (c : Char) (cs : List Char) (h1 : c ≠ grantIDEscape)
    (h2 : c ≠ grantIDDelimiter) :
    splitFields (c :: cs) = (splitFields cs).map (pushChar c) := by
  cases cs with
  | nil => simp [splitFields, h1, h2, pushChar]
  | cons e rest => simp [splitFields, h1, h2]

theorem splitFields_delimiter (cs : List Char) :
    splitFields (grantIDDelimiter :: cs) = (splitFields cs).map (fun fs => [] :: fs) := by
  have h : grantIDDelimiter ≠ grantIDEscape := by decide
  cases cs with
  | nil => simp [splitFields, h]
  | cons e rest => simp [splitFields, h]

theorem splitFields_escaped (e : Char) (cs : List Char)
    (h : e = grantIDDelimiter ∨ e = grantIDEscape) :
    splitFields (grantIDEscape :: e :: cs) = (splitFields cs).map (pushChar e) := by
  simp [splitFields, h]

theorem splitFields_escapeField (f t : List Char) :
    splitFields (escapeField f ++ t) = (splitFields t).map (fun fs => f.foldr pushChar fs) := by
  induction f with
  | nil => simp [escapeField]
  | cons c cs ih =>
    by_cases h : c = grantIDDelimiter ∨ c = grantIDEscape
    · simp only [escapeField, h, if_true, List.cons_append]
      rw [splitFields_escaped c _ h, ih]
      simp [Option.map_map, Function.comp_def]
    · simp only [escapeField, h, if_false, List.cons_append]
      have h1 : c ≠ grantIDEscape := fun hc => h (Or.inr hc)
      have h2 : c ≠ grantIDDelimiter := fun hc => h (Or.inl hc)
      rw [splitFields_plain c _ h1 h2, ih]
      simp [Option.map_map, Function.comp_def]

theorem foldr_pushChar (f g : List Char) (gs : List (List Char)) :
    f.foldr pushChar (g :: gs) = (f ++ g) :: gs := by
  induction f with
  | nil => rfl
  | cons c cs ih => simp [List.foldr, ih, pushChar]

theorem splitFields_joinFields (f : List Char) (fs : List (List Char)) :
    splitFields (joinFields (f :: fs)) = some (f :: fs) := by
  induction fs generalizing f with
  | nil =>
    have h := splitFields_escapeField f []
    simp only [List.append_nil] at h
    simp [joinFields, h, splitFields, foldr_pushChar]
  | cons g gs ih =>
    simp only [joinFields]
    rw [splitFields_escapeField, splitFields_delimiter, ih g]
    simp [foldr_pushChar]

theorem parseBool_formatBool (b : Bool) : parseBool (formatBool b).data = some b := by
  cases b <;> decide

theorem grantIDFromString_String (gi : grantID) :
    ∃ s, gi.String = .ok s ∧ grantIDFromString s = .ok gi := by
  refine ⟨_, rfl, ?_⟩
  simp only [grantIDFromString, List.cons_append, List.nil_append, splitFields_joinFields,
    parseBool_formatBool]
  cases gi with
  | mk n p b rs =>
    simp [List.map_map, Function.comp_def]

/-! ## Writes to the record and the shape of a read -/

theorem State.Set_fault {W : Type} (env : Env W) (s : State W) (key : String) (value : Value)
    (err : GrantError) (h : env.setFault s.data key value = some err) :
    s.Set env key value = (some err, { s with calls := s.calls ++ [Call.Set key value] }) := by
  simp [State.Set, h]

theorem State.Set_ok {W : Type} (env : Env W) (s : State W) (key : String) (value : Value)
    (d : ResourceData) (h : env.setFault s.data key value = none)
    (hw : s.data.write key value = some d) :
    s.Set env key value =
      (none, { data := d, meta := s.meta, calls := s.calls ++ [Call.Set key value] }) := by
  simp [State.Set, h, hw]

theorem Read_decoded {W : Type} (env : Env W) (s : State W) (gi : grantID)
    (hdec : env.grantIDFromString s.data.id = .ok gi) (hset : writesSucceed env s.data gi) :
    ReadResourceMonitorGrant env s =
      ((env.readGenericGrant (decodedData s.data gi) s.meta resourceMonitorGrantSchema
          (snowflake.ResourceMonitorGrant gi.ResourceName) false
          validResourceMonitorPrivileges).1,
       { data := (env.readGenericGrant (decodedData s.data gi) s.meta resourceMonitorGrantSchema
          (snowflake.ResourceMonitorGrant gi.ResourceName) false
          validResourceMonitorPrivileges).2.1,
         meta := (env.readGenericGrant (decodedData s.data gi) s.meta resourceMonitorGrantSchema
          (snowflake.ResourceMonitorGrant gi.ResourceName) false
          validResourceMonitorPrivileges).2.2,
         calls := s.calls ++ readCalls s.data.id gi }) := by
  obtain ⟨h1, h2, h3⟩ := hset
  simp [ReadResourceMonitorGrant, hdec, State.Set, h1, h2, h3, ResourceData.write, decodedData,
    readCalls]

theorem Read_writes_of_success {W : Type} (env : Env W) (s : State W) (gi : grantID)
    (hdec : env.grantIDFromString s.data.id = .ok gi)
    (hok : (ReadResourceMonitorGrant env s).1 = none) : writesSucceed env s.data gi := by
  unfold writesSucceed
  cases h1 : env.setFault s.data "monitor_name" (.str gi.ResourceName) with
  | some e => simp [ReadResourceMonitorGrant, hdec, State.Set, h1] at hok
  | none =>
    cases h2 : env.setFault { s.data with monitor_name := gi.ResourceName } "privilege"
        (.str gi.Privilege) with
    | some e => simp [ReadResourceMonitorGrant, hdec, State.Set, h1, h2, ResourceData.write] at hok
    | none =>
      cases h3 : env.setFault
          { s.data with monitor_name := gi.ResourceName, privilege := gi.Privilege }
          "with_grant_option" (.bool gi.GrantOption) with
      | some e =>
        simp [ReadResourceMonitorGrant, hdec, State.Set, h1, h2, h3, ResourceData.write] at hok
      | none => simp

theorem Read_error_of_undecodable {W : Type} (env : Env W) (s : State W) (err : GrantError)
    (h : env.grantIDFromString s.data.id = .error err) :
    ReadResourceMonitorGrant env s =
      (some err, { s with calls := s.calls ++ [Call.grantIDFromString s.data.id] }) := by
  simp [ReadResourceMonitorGrant, h]

end resources

namespace resources

/-! ## The shape of a create and of a delete -/

theorem Create_generic_failed {W : Type} (env : Env W) (s : State W) (err : GrantError)
    (d : ResourceData) (m : W)
    (h : env.createGenericGrant s.data s.meta (snowflake.ResourceMonitorGrant s.data.monitor_name)
      = (some err, d, m)) :
    CreateResourceMonitorGrant env s =
      (some err, { data := d, meta := m,
                   calls := s.calls ++
                     [Call.createGenericGrant
                       (snowflake.ResourceMonitorGrant s.data.monitor_name)] }) := by
  simp [CreateResourceMonitorGrant, h]

theorem Create_encoder_failed {W : Type} (env : Env W) (s : State W) (err : GrantError)
    (d : ResourceData) (m : W)
    (h : env.createGenericGrant s.data s.meta (snowflake.ResourceMonitorGrant s.data.monitor_name)
      = (none, d, m))
    (henc : env.grantIDString (createdID s.data) = .error err) :
    CreateResourceMonitorGrant env s =
      (some err, { data := d, meta := m,
                   calls := s.calls ++
                     [Call.createGenericGrant (snowflake.ResourceMonitorGrant s.data.monitor_name),
                      Call.grantIDString (createdID s.data)] }) := by
  simp only [createdID] at henc
  simp [CreateResourceMonitorGrant, h, henc, createdID]

theorem Create_encoded {W : Type} (env : Env W) (s : State W) (v : String)
    (d : ResourceData) (m : W)
    (h : env.createGenericGrant s.data s.meta (snowflake.ResourceMonitorGrant s.data.monitor_name)
      = (none, d, m))
    (henc : env.grantIDString (createdID s.data) = .ok v) :
    CreateResourceMonitorGrant env s =
      ReadResourceMonitorGrant env
        { data := d.SetId v, meta := m,
          calls := s.calls ++
            [Call.createGenericGrant (snowflake.ResourceMonitorGrant s.data.monitor_name),
             Call.grantIDString (createdID s.data), Call.SetId v] } := by
  simp only [createdID] at henc
  simp [CreateResourceMonitorGrant, h, henc, createdID]

theorem Read_calls {W : Type} (env : Env W) (s : State W) :
    ∃ rest, (ReadResourceMonitorGrant env s).2.calls =
        s.calls ++ Call.grantIDFromString s.data.id :: rest ∧
      ∀ v, Call.SetId v ∉ rest := by
  cases hdec : env.grantIDFromString s.data.id with
  | error err => exact ⟨[], by simp [ReadResourceMonitorGrant, hdec], by simp⟩
  | ok gi =>
    cases h1 : env.setFault s.data "monitor_name" (.str gi.ResourceName) with
    | some e =>
      exact ⟨[Call.Set "monitor_name" (.str gi.ResourceName)],
        by simp [ReadResourceMonitorGrant, hdec, State.Set, h1], by simp⟩
    | none =>
      cases h2 : env.setFault { s.data with monitor_name := gi.ResourceName } "privilege"
          (.str gi.Privilege) with
      | some e =>
        exact ⟨[Call.Set "monitor_name" (.str gi.ResourceName),
            Call.Set "privilege" (.str gi.Privilege)],
          by simp [ReadResourceMonitorGrant, hdec, State.Set, h1, h2, ResourceData.write],
          by simp⟩
      | none =>
        cases h3 : env.setFault
            { s.data with monitor_name := gi.ResourceName, privilege := gi.Privilege }
            "with_grant_option" (.bool gi.GrantOption) with
        | some e =>
          exact ⟨[Call.Set "monitor_name" (.str gi.ResourceName),
              Call.Set "privilege" (.str gi.Privilege),
              Call.Set "with_grant_option" (.bool gi.GrantOption)],
            by simp [ReadResourceMonitorGrant, hdec, State.Set, h1, h2, h3, ResourceData.write],
            by simp⟩
        | none =>
          refine ⟨(readCalls s.data.id gi).tail, ?_, by simp [readCalls]⟩
          rw [Read_decoded env s gi hdec ⟨h1, h2, h3⟩]
          simp [readCalls]

theorem StringInSlice_eq_contains (ps : PrivilegeSet) (v : String) :
    StringInSlice ps.toList true v = ps.contains v := by
  unfold StringInSlice PrivilegeSet.contains PrivilegeSet.toList
  induction ps.tokens with
  | nil => rfl
  | cons q qs ih =>
    simp only [List.any_cons, ih]
    congr 1
    by_cases h2 : toLower v = toLower q
    · have h3 : toLower q = toLower v := h2.symm
      simp [h2]
    · have h3 : ¬ toLower q = toLower v := fun e => h2 e.symm
      have h : ¬ v = q := fun e => h2 (by rw [e])
      have e1 : (v == q) = false := beq_eq_false_iff_ne.mpr h
      have e2 : (toLower v == toLower q) = false := beq_eq_false_iff_ne.mpr h2
      have e3 : (toLower q == toLower v) = false := beq_eq_false_iff_ne.mpr h3
      rw [e1, e2, e3]; rfl

end resources

namespace resources

/-! ## Reading and deleting -/

/-- Claim C5: when the ID of the record cannot be decoded, `ReadResourceMonitorGrant`
returns the decode error and does nothing else: the record and the remote system
are as before, and the only call made is the decoding of the ID, so no field is
written and the generic read is not invoked. -/
theorem ReadResourceMonitorGrant_undecodable {W : Type} (env : Env W) (s : State W)
    (err : GrantError) (h : env.grantIDFromString s.data.id = .error err) :
    (ReadResourceMonitorGrant env s).1 = some err ∧
    (ReadResourceMonitorGrant env s).2.data = s.data ∧
    (ReadResourceMonitorGrant env s).2.meta = s.meta ∧
    newCalls s (ReadResourceMonitorGrant env s) = [Call.grantIDFromString s.data.id] := by
  simp [Read_error_of_undecodable env s err h, newCalls]

/-- The statement of claim C5 at a record whose ID has a single field. -/
theorem ReadResourceMonitorGrant_undecodable_witness :
    specEnv.grantIDFromString "garbage" = .error (.MalformedIDError "wrong number of fields") ∧
    (ReadResourceMonitorGrant specEnv
        { data := { scenarioData with id := "garbage" }, meta := scenarioWorld }).1
      = some (.MalformedIDError "wrong number of fields") ∧
    (ReadResourceMonitorGrant specEnv
        { data := { scenarioData with id := "garbage" }, meta := scenarioWorld }).2.data
      = { scenarioData with id := "garbage" } ∧
    (ReadResourceMonitorGrant specEnv
        { data := { scenarioData with id := "garbage" }, meta := scenarioWorld }).2.meta
      = scenarioWorld ∧
    newCalls { data := { scenarioData with id := "garbage" }, meta := scenarioWorld }
        (ReadResourceMonitorGrant specEnv
          { data := { scenarioData with id := "garbage" }, meta := scenarioWorld })
      = [Call.grantIDFromString "garbage"] :=
  ⟨by decide,
   ReadResourceMonitorGrant_undecodable specEnv
     { data := { scenarioData with id := "garbage" }, meta := scenarioWorld }
     (.MalformedIDError "wrong number of fields") (by decide)⟩

/-- Claim C6: when the ID of the record cannot be decoded, `DeleteResourceMonitorGrant`
returns the decode error, leaves record and remote system as they are and makes no
call but the decoding, so the generic delete is not invoked; when the ID decodes,
it invokes the generic delete exactly once, on the record and remote system it was
given, with the builder for the resource name decoded from the ID, and returns the
result of that call. -/
theorem DeleteResourceMonitorGrant_decode_then_delete {W : Type} (env : Env W) (s : State W) :
    (∀ err, env.grantIDFromString s.data.id = .error err →
      DeleteResourceMonitorGrant env s = (some err, { s with calls := s.calls ++
        [Call.grantIDFromString s.data.id] })) ∧
    (∀ gi, env.grantIDFromString s.data.id = .ok gi →
      (DeleteResourceMonitorGrant env s).1 =
        (env.deleteGenericGrant s.data s.meta
          (snowflake.ResourceMonitorGrant gi.ResourceName)).1 ∧
      (DeleteResourceMonitorGrant env s).2.data =
        (env.deleteGenericGrant s.data s.meta
          (snowflake.ResourceMonitorGrant gi.ResourceName)).2.1 ∧
      (DeleteResourceMonitorGrant env s).2.meta =
        (env.deleteGenericGrant s.data s.meta
          (snowflake.ResourceMonitorGrant gi.ResourceName)).2.2 ∧
      newCalls s (DeleteResourceMonitorGrant env s) =
        [Call.grantIDFromString s.data.id,
         Call.deleteGenericGrant (snowflake.ResourceMonitorGrant gi.ResourceName)]) := by
  constructor
  · intro err h
    simp [DeleteResourceMonitorGrant, h]
  · intro gi h
    simp [DeleteResourceMonitorGrant, h, newCalls]

/-- The statement of claim C6 at an undecodable ID and at the ID of the scenario,
whose deletion revokes MONITOR from ANALYST. -/
theorem DeleteResourceMonitorGrant_decode_then_delete_witness :
    DeleteResourceMonitorGrant specEnv
        { data := { scenarioData with id := "a|b|maybe" }, meta := scenarioWorld }
      = (some (.MalformedIDError "grant option is not a boolean"),
         { data := { scenarioData with id := "a|b|maybe" }, meta := scenarioWorld,
           calls := [] ++ [Call.grantIDFromString "a|b|maybe"] }) ∧
    newCalls { data := { scenarioData with id := "WH_MONITOR|MONITOR|false" },
               meta := scenarioWorld }
        (DeleteResourceMonitorGrant specEnv
          { data := { scenarioData with id := "WH_MONITOR|MONITOR|false" },
            meta := scenarioWorld })
      = [Call.grantIDFromString "WH_MONITOR|MONITOR|false",
         Call.deleteGenericGrant (snowflake.ResourceMonitorGrant "WH_MONITOR")] :=
  ⟨(DeleteResourceMonitorGrant_decode_then_delete specEnv
      { data := { scenarioData with id := "a|b|maybe" }, meta := scenarioWorld }).1
      (.MalformedIDError "grant option is not a boolean") (by decide),
   ((DeleteResourceMonitorGrant_decode_then_delete specEnv
      { data := { scenarioData with id := "WH_MONITOR|MONITOR|false" },
        meta := scenarioWorld }).2
      { ResourceName := "WH_MONITOR", Privilege := "MONITOR" } (by decide)).2.2.2⟩

/-- Claim C10: when the ID of the record decodes and the three field writes succeed,
`ReadResourceMonitorGrant` sets `monitor_name`, `privilege` and `with_grant_option`
to the values decoded from the ID (the grant-option flag is the one of the stored
identity, whatever the remote system holds), and only then invokes the generic read,
on the record so written, with the builder for the decoded resource name, the
resource-monitor privilege set and the future-objects mode off; it returns the
result of that call. -/
theorem ReadResourceMonitorGrant_decoded {W : Type} (env : Env W) (s : State W) (gi : grantID)
    (hdec : env.grantIDFromString s.data.id = .ok gi) (hset : writesSucceed env s.data gi) :
    (ReadResourceMonitorGrant env s).1 =
      (env.readGenericGrant
        { s.data with monitor_name := gi.ResourceName, privilege := gi.Privilege,
                      with_grant_option := gi.GrantOption }
        s.meta resourceMonitorGrantSchema (snowflake.ResourceMonitorGrant gi.ResourceName)
        false validResourceMonitorPrivileges).1 ∧
    (ReadResourceMonitorGrant env s).2.data =
      (env.readGenericGrant
        { s.data with monitor_name := gi.ResourceName, privilege := gi.Privilege,
                      with_grant_option := gi.GrantOption }
        s.meta resourceMonitorGrantSchema (snowflake.ResourceMonitorGrant gi.ResourceName)
        false validResourceMonitorPrivileges).2.1 ∧
    (ReadResourceMonitorGrant env s).2.meta =
      (env.readGenericGrant
        { s.data with monitor_name := gi.ResourceName, privilege := gi.Privilege,
                      with_grant_option := gi.GrantOption }
        s.meta resourceMonitorGrantSchema (snowflake.ResourceMonitorGrant gi.ResourceName)
        false validResourceMonitorPrivileges).2.2 ∧
    newCalls s (ReadResourceMonitorGrant env s) =
      [ Call.grantIDFromString s.data.id,
        Call.Set "monitor_name" (.str gi.ResourceName),
        Call.Set "privilege" (.str gi.Privilege),
        Call.Set "with_grant_option" (.bool gi.GrantOption),
        Call.readGenericGrant (snowflake.ResourceMonitorGrant gi.ResourceName) false
          validResourceMonitorPrivileges ] := by
  rw [Read_decoded env s gi hdec hset]
  simp [newCalls, readCalls, decodedData]

/-- The statement of claim C10 at a record whose fields differ from its ID and a
remote system whose only grant row has the grant option set: the fields become
those of the ID, the flag `false` of the ID included. -/
theorem ReadResourceMonitorGrant_decoded_witness :
    specEnv.grantIDFromString "WH_MONITOR|MONITOR|false"
      = .ok { ResourceName := "WH_MONITOR", Privilege := "MONITOR", GrantOption := false } ∧
    (ReadResourceMonitorGrant specEnv
        { data := { id := "WH_MONITOR|MONITOR|false", monitor_name := "OTHER",
                    privilege := "MODIFY", roles := ["ANALYST"], with_grant_option := true },
          meta := { objects := ["WH_MONITOR"],
                    rows := [{ object := "WH_MONITOR", privilege := "MONITOR",
                               role := "ANALYST", grantOption := true }] } }).2.data
      = { id := "WH_MONITOR|MONITOR|false", monitor_name := "WH_MONITOR",
          privilege := "MONITOR", roles := ["ANALYST"], with_grant_option := false } :=
  ⟨by decide,
   (ReadResourceMonitorGrant_decoded specEnv
      { data := { id := "WH_MONITOR|MONITOR|false", monitor_name := "OTHER",
                  privilege := "MODIFY", roles := ["ANALYST"], with_grant_option := true },
        meta := { objects := ["WH_MONITOR"],
                  rows := [{ object := "WH_MONITOR", privilege := "MONITOR",
                             role := "ANALYST", grantOption := true }] } }
      { ResourceName := "WH_MONITOR", Privilege := "MONITOR", GrantOption := false }
      (by decide) (by decide)).2.1.trans (by decide)⟩

end resources

namespace resources

/-! ## Creating -/

/-- Claim C4: `CreateResourceMonitorGrant` calls `SetId` if and only if the generic
grant step and the encoding of the identity both succeed, and then with the encoded
string.  If the generic grant step fails, it returns that error, the record is as
the step left it, and nothing is encoded or read.  If the encoding fails, it returns
the encoding error without setting the ID or reading, and the remote system stays
as the generic grant step left it: the step is not undone. -/
theorem CreateResourceMonitorGrant_sets_id_iff {W : Type} (env : Env W) (s : State W) :
    (∀ v, Call.SetId v ∈ newCalls s (CreateResourceMonitorGrant env s) ↔
      ((env.createGenericGrant s.data s.meta
          (snowflake.ResourceMonitorGrant s.data.monitor_name)).1 = none ∧
        env.grantIDString (createdID s.data) = .ok v)) ∧
    (∀ err d m,
      env.createGenericGrant s.data s.meta (snowflake.ResourceMonitorGrant s.data.monitor_name)
        = (some err, d, m) →
      CreateResourceMonitorGrant env s =
        (some err, { data := d, meta := m,
                     calls := s.calls ++
                       [Call.createGenericGrant
                         (snowflake.ResourceMonitorGrant s.data.monitor_name)] })) ∧
    (∀ err d m,
      env.createGenericGrant s.data s.meta (snowflake.ResourceMonitorGrant s.data.monitor_name)
        = (none, d, m) →
      env.grantIDString (createdID s.data) = .error err →
      CreateResourceMonitorGrant env s =
        (some err, { data := d, meta := m,
                     calls := s.calls ++
                       [Call.createGenericGrant
                          (snowflake.ResourceMonitorGrant s.data.monitor_name),
                        Call.grantIDString (createdID s.data)] })) := by
  refine ⟨?_, fun err d m h => Create_generic_failed env s err d m h,
    fun err d m h henc => Create_encoder_failed env s err d m h henc⟩
  intro v
  rcases hgen : env.createGenericGrant s.data s.meta
      (snowflake.ResourceMonitorGrant s.data.monitor_name) with ⟨e, d, m⟩
  cases e with
  | some err =>
    rw [Create_generic_failed env s err d m hgen]
    simp [newCalls]
  | none =>
    cases henc : env.grantIDString (createdID s.data) with
    | error err =>
      rw [Create_encoder_failed env s err d m hgen henc]
      simp [newCalls]
    | ok u =>
      rw [Create_encoded env s u d m hgen henc]
      obtain ⟨rest, hcalls, hrest⟩ := Read_calls env
        { data := d.SetId u, meta := m,
          calls := s.calls ++
            [Call.createGenericGrant (snowflake.ResourceMonitorGrant s.data.monitor_name),
             Call.grantIDString (createdID s.data), Call.SetId u] }
      simp only [newCalls, hcalls, List.append_assoc, List.drop_left]
      have hv := hrest v
      constructor
      · intro hmem
        simp only [List.mem_append, List.mem_cons, List.mem_singleton, reduceCtorEq,
          Call.SetId.injEq, false_or, List.not_mem_nil, or_false] at hmem
        rcases hmem with h1 | h1
        · exact ⟨trivial, by rw [h1]⟩
        · exact absurd h1 hv
      · rintro ⟨-, h2⟩
        have huv : u = v := by injection h2
        subst huv
        simp

/-- The statement of claim C4 where the monitor does not exist remotely (the generic
grant step fails) and where the encoder fails after the GRANT was executed. -/
theorem CreateResourceMonitorGrant_sets_id_iff_witness :
    CreateResourceMonitorGrant specEnv { data := scenarioData, meta := {} }
      = (some (.RemoteExecutionError "object not found"),
         { data := scenarioData, meta := {},
           calls := [] ++ [Call.createGenericGrant
             (snowflake.ResourceMonitorGrant "WH_MONITOR")] }) ∧
    CreateResourceMonitorGrant failingEncoderEnv { data := scenarioData, meta := scenarioWorld }
      = (some (.EncodingError "field cannot be escaped"),
         { data := scenarioData,
           meta := { objects := ["WH_MONITOR"],
                     rows := [{ object := "WH_MONITOR", privilege := "MONITOR",
                                role := "ANALYST", grantOption := false }],
                     executed := [Statement.GRANT (snowflake.ResourceMonitorGrant "WH_MONITOR")
                                    "MONITOR" false "ANALYST"] },
           calls := [] ++ [Call.createGenericGrant (snowflake.ResourceMonitorGrant "WH_MONITOR"),
                           Call.grantIDString (createdID scenarioData)] }) :=
  ⟨(CreateResourceMonitorGrant_sets_id_iff specEnv
      { data := scenarioData, meta := {} }).2.1 _ _ _ (by decide),
   (CreateResourceMonitorGrant_sets_id_iff failingEncoderEnv
      { data := scenarioData, meta := scenarioWorld }).2.2 _ _ _ (by decide) (by decide)⟩

end resources

namespace resources

/-- The generic grant step is the first call of every create. -/
theorem Create_calls {W : Type} (env : Env W) (s : State W) :
    ∃ rest, (CreateResourceMonitorGrant env s).2.calls =
      s.calls ++ Call.createGenericGrant (snowflake.ResourceMonitorGrant s.data.monitor_name)
        :: rest := by
  rcases hgen : env.createGenericGrant s.data s.meta
      (snowflake.ResourceMonitorGrant s.data.monitor_name) with ⟨e, d, m⟩
  cases e with
  | some err => exact ⟨[], by rw [Create_generic_failed env s err d m hgen]⟩
  | none =>
    cases henc : env.grantIDString (createdID s.data) with
    | error err =>
      exact ⟨[Call.grantIDString (createdID s.data)],
        by rw [Create_encoder_failed env s err d m hgen henc]⟩
    | ok u =>
      obtain ⟨rest, hcalls, -⟩ := Read_calls env
        { data := d.SetId u, meta := m,
          calls := s.calls ++
            [Call.createGenericGrant (snowflake.ResourceMonitorGrant s.data.monitor_name),
             Call.grantIDString (createdID s.data), Call.SetId u] }
      refine ⟨[Call.grantIDString (createdID s.data), Call.SetId u] ++
        Call.grantIDFromString u :: rest, ?_⟩
      rw [Create_encoded env s u d m hgen henc, hcalls]
      simp [ResourceData.SetId]

/-- A create that returns no error went through the generic grant step and the
encoder without error. -/
theorem Create_success {W : Type} (env : Env W) (s : State W)
    (hok : (CreateResourceMonitorGrant env s).1 = none) :
    ∃ d m v,
      env.createGenericGrant s.data s.meta (snowflake.ResourceMonitorGrant s.data.monitor_name)
        = (none, d, m) ∧
      env.grantIDString (createdID s.data) = .ok v := by
  rcases hgen : env.createGenericGrant s.data s.meta
      (snowflake.ResourceMonitorGrant s.data.monitor_name) with ⟨e, d, m⟩
  cases e with
  | some err =>
    rw [Create_generic_failed env s err d m hgen] at hok
    simp at hok
  | none =>
    cases henc : env.grantIDString (createdID s.data) with
    | error err =>
      rw [Create_encoder_failed env s err d m hgen henc] at hok
      simp at hok
    | ok u => exact ⟨d, m, u, rfl, rfl⟩

/-- Claim C3, as the code has it: `CreateResourceMonitorGrant` makes no privilege
check of its own.  For a request whose privilege is not in the resource-monitor
privilege set, its first call is still the generic grant step, with the builder for
the monitor name, and it fails at that point only when that step fails, returning
the error of the step.  Such a privilege is rejected by the validator of the
`privilege` field of the schema. -/
theorem CreateResourceMonitorGrant_no_privilege_check {W : Type} (env : Env W) (s : State W)
    (h : validResourceMonitorPrivileges.contains s.data.privilege = false) :
    (∃ rest, newCalls s (CreateResourceMonitorGrant env s) =
      Call.createGenericGrant (snowflake.ResourceMonitorGrant s.data.monitor_name) :: rest) ∧
    (∀ err d m,
      env.createGenericGrant s.data s.meta (snowflake.ResourceMonitorGrant s.data.monitor_name)
        = (some err, d, m) →
      CreateResourceMonitorGrant env s =
        (some err, { data := d, meta := m,
                     calls := s.calls ++
                       [Call.createGenericGrant
                         (snowflake.ResourceMonitorGrant s.data.monitor_name)] })) ∧
    (∃ f, (lookupField resourceMonitorGrantSchema "privilege").bind (fun x => x.ValidateFunc)
        = some f ∧ f s.data.privilege = false) := by
  refine ⟨?_, fun err d m hgen => Create_generic_failed env s err d m hgen, ?_⟩
  · obtain ⟨rest, hrest⟩ := Create_calls env s
    exact ⟨rest, by simp [newCalls, hrest]⟩
  · refine ⟨StringInSlice validResourceMonitorPrivileges.toList true, rfl, ?_⟩
    rw [StringInSlice_eq_contains, h]

/-- The statement of claim C3, as the code has it, at a request for the privilege
BOGUS. -/
theorem CreateResourceMonitorGrant_no_privilege_check_witness :
    validResourceMonitorPrivileges.contains "BOGUS" = false ∧
    (∃ rest, newCalls { data := { scenarioData with privilege := "BOGUS" }, meta := scenarioWorld }
        (CreateResourceMonitorGrant specEnv
          { data := { scenarioData with privilege := "BOGUS" }, meta := scenarioWorld }) =
      Call.createGenericGrant (snowflake.ResourceMonitorGrant "WH_MONITOR") :: rest) :=
  ⟨by decide,
   (CreateResourceMonitorGrant_no_privilege_check specEnv
      { data := { scenarioData with privilege := "BOGUS" }, meta := scenarioWorld }
      (by decide)).1⟩

/-- Claim C3 fails: a request for BOGUS, which is not in the resource-monitor
privilege set, is not rejected by `CreateResourceMonitorGrant`.  The generic grant
step is its first call, the GRANT statement is executed, the create returns no
error and the ID is set. -/
theorem CreateResourceMonitorGrant_invalid_privilege_counterexample :
    validResourceMonitorPrivileges.contains "BOGUS" = false ∧
    (CreateResourceMonitorGrant specEnv
      { data := { scenarioData with privilege := "BOGUS" }, meta := scenarioWorld }).1 = none ∧
    (CreateResourceMonitorGrant specEnv
      { data := { scenarioData with privilege := "BOGUS" }, meta := scenarioWorld }).2.calls.head?
      = some (Call.createGenericGrant (snowflake.ResourceMonitorGrant "WH_MONITOR")) ∧
    (CreateResourceMonitorGrant specEnv
      { data := { scenarioData with privilege := "BOGUS" }, meta := scenarioWorld }).2.meta.executed
      = [Statement.GRANT (snowflake.ResourceMonitorGrant "WH_MONITOR") "BOGUS" false "ANALYST",
         Statement.SHOW_GRANTS (snowflake.ResourceMonitorGrant "WH_MONITOR")] ∧
    (CreateResourceMonitorGrant specEnv
      { data := { scenarioData with privilege := "BOGUS" }, meta := scenarioWorld }).2.data.id
      = "WH_MONITOR|BOGUS|false" := by
  decide

/-- Claim C1, as the code has it: when `CreateResourceMonitorGrant` succeeds it calls
`SetId` once, with the encoding of the resource name, the privilege and the
grant-option flag of the request and of no role: the identity it encodes has an
empty role list whatever roles were granted, and the stored ID decodes to that
identity.  For name WH_MONITOR, privilege MONITOR and grant option false the stored
ID is `WH_MONITOR|MONITOR|false`. -/
theorem CreateResourceMonitorGrant_id_without_roles {W : Type} (env : Env W) (s : State W)
    (henc : env.grantIDString = grantID.String)
    (hok : (CreateResourceMonitorGrant env s).1 = none) :
    ∃ v rest,
      newCalls s (CreateResourceMonitorGrant env s) =
        [Call.createGenericGrant (snowflake.ResourceMonitorGrant s.data.monitor_name),
         Call.grantIDString (createdID s.data), Call.SetId v] ++ rest ∧
      (∀ u, Call.SetId u ∉ rest) ∧
      grantID.String
        { ResourceName := s.data.monitor_name, Privilege := s.data.privilege,
          GrantOption := s.data.with_grant_option, Roles := [] } = .ok v ∧
      grantIDFromString v =
        .ok { ResourceName := s.data.monitor_name, Privilege := s.data.privilege,
              GrantOption := s.data.with_grant_option, Roles := [] } ∧
      (s.data.monitor_name = "WH_MONITOR" → s.data.privilege = "MONITOR" →
        s.data.with_grant_option = false → v = "WH_MONITOR|MONITOR|false") := by
  obtain ⟨d, m, v, hgen, hv⟩ := Create_success env s hok
  rw [henc] at hv
  obtain ⟨rest, hcalls, hrest⟩ := Read_calls env
    { data := d.SetId v, meta := m,
      calls := s.calls ++
        [Call.createGenericGrant (snowflake.ResourceMonitorGrant s.data.monitor_name),
         Call.grantIDString (createdID s.data), Call.SetId v] }
  refine ⟨v, Call.grantIDFromString v :: rest, ?_, ?_, hv, ?_, ?_⟩
  · rw [Create_encoded env s v d m hgen (by rw [henc]; exact hv), newCalls, hcalls]
    simp [ResourceData.SetId]
  · intro u hu
    rcases List.mem_cons.mp hu with h1 | h1
    · cases h1
    · exact hrest u h1
  · obtain ⟨v2, h1, h2⟩ := grantIDFromString_String (createdID s.data)
    rw [hv] at h1
    injection h1 with h1
    rw [h1]
    exact h2
  · intro h1 h2 h3
    have hd : grantID.String (createdID scenarioData) = .ok "WH_MONITOR|MONITOR|false" := by
      decide
    have he : createdID s.data = createdID scenarioData := by
      simp [createdID, h1, h2, h3, scenarioData]
    have hv3 : grantID.String (createdID s.data) = .ok v := hv
    rw [he, hd] at hv3
    injection hv3 with hv3
    exact hv3.symm

/-- The statement of claim C1, as the code has it, at the request of the scenario. -/
theorem CreateResourceMonitorGrant_id_without_roles_witness :
    (CreateResourceMonitorGrant specEnv { data := scenarioData, meta := scenarioWorld }).1 = none ∧
    ∃ v rest,
      newCalls { data := scenarioData, meta := scenarioWorld }
          (CreateResourceMonitorGrant specEnv { data := scenarioData, meta := scenarioWorld }) =
        [Call.createGenericGrant (snowflake.ResourceMonitorGrant "WH_MONITOR"),
         Call.grantIDString (createdID scenarioData), Call.SetId v] ++ rest ∧
      (∀ u, Call.SetId u ∉ rest) ∧
      grantID.String
        { ResourceName := "WH_MONITOR", Privilege := "MONITOR",
          GrantOption := false, Roles := [] } = .ok v ∧
      grantIDFromString v =
        .ok { ResourceName := "WH_MONITOR", Privilege := "MONITOR",
              GrantOption := false, Roles := [] } ∧
      ("WH_MONITOR" = "WH_MONITOR" → "MONITOR" = "MONITOR" →
        false = false → v = "WH_MONITOR|MONITOR|false") :=
  ⟨by decide,
   CreateResourceMonitorGrant_id_without_roles specEnv
     { data := scenarioData, meta := scenarioWorld } rfl (by decide)⟩

/-- Claim C1 fails: for name WH_MONITOR, privilege MONITOR, roles ANALYST and grant
option false the create succeeds and grants to ANALYST, and the ID it stores is
`WH_MONITOR|MONITOR|false`, not `WH_MONITOR|MONITOR|false|ANALYST`; the stored ID
decodes to an identity without roles, and it is the ID stored for any other role
set as well. -/
theorem CreateResourceMonitorGrant_scenario_id_counterexample :
    (CreateResourceMonitorGrant specEnv { data := scenarioData, meta := scenarioWorld }).1 = none ∧
    (CreateResourceMonitorGrant specEnv { data := scenarioData, meta := scenarioWorld }).2.meta.rows
      = [{ object := "WH_MONITOR", privilege := "MONITOR", role := "ANALYST",
           grantOption := false }] ∧
    (CreateResourceMonitorGrant specEnv { data := scenarioData, meta := scenarioWorld }).2.data.id
      = "WH_MONITOR|MONITOR|false" ∧
    (CreateResourceMonitorGrant specEnv { data := scenarioData, meta := scenarioWorld }).2.data.id
      ≠ "WH_MONITOR|MONITOR|false|ANALYST" ∧
    grantIDFromString
        (CreateResourceMonitorGrant specEnv
          { data := scenarioData, meta := scenarioWorld }).2.data.id
      = .ok { ResourceName := "WH_MONITOR", Privilege := "MONITOR", GrantOption := false,
              Roles := [] } ∧
    (CreateResourceMonitorGrant specEnv
        { data := { scenarioData with roles := ["AUDITOR", "OPERATOR"] },
          meta := scenarioWorld }).2.data.id
      = "WH_MONITOR|MONITOR|false" := by
  decide

end resources

namespace resources

/-- The generic read of the specification leaves name, privilege and grant-option
flag of the record alone. -/
theorem specEnv_readKeepsIdentity : readKeepsIdentity specEnv := by
  intro d m b
  simp only [specEnv, readGenericGrant]
  split <;> simp [ResourceData.SetId]

/-- Claim C2: with the codec of the specification, for every monitor name, privilege
and grant-option flag (delimiters inside them included), the grant ID that a
successful `CreateResourceMonitorGrant` encodes decodes in `ReadResourceMonitorGrant`
to the same name, privilege and flag; the read writes exactly these three values to
`monitor_name`, `privilege` and `with_grant_option` before the generic read, so,
the generic read leaving these fields alone, the record holds after the create the
values the create was given. -/
theorem CreateResourceMonitorGrant_roundtrip {W : Type} (env : Env W) (s : State W)
    (henc : env.grantIDString = grantID.String)
    (hdec : env.grantIDFromString = grantIDFromString)
    (hok : (CreateResourceMonitorGrant env s).1 = none) :
    ∃ v,
      grantID.String (createdID s.data) = .ok v ∧
      grantIDFromString v = .ok (createdID s.data) ∧
      newCalls s (CreateResourceMonitorGrant env s) =
        [ Call.createGenericGrant (snowflake.ResourceMonitorGrant s.data.monitor_name),
          Call.grantIDString (createdID s.data),
          Call.SetId v,
          Call.grantIDFromString v,
          Call.Set "monitor_name" (.str s.data.monitor_name),
          Call.Set "privilege" (.str s.data.privilege),
          Call.Set "with_grant_option" (.bool s.data.with_grant_option),
          Call.readGenericGrant (snowflake.ResourceMonitorGrant s.data.monitor_name) false
            validResourceMonitorPrivileges ] ∧
      (readKeepsIdentity env →
        (CreateResourceMonitorGrant env s).2.data.monitor_name = s.data.monitor_name ∧
        (CreateResourceMonitorGrant env s).2.data.privilege = s.data.privilege ∧
        (CreateResourceMonitorGrant env s).2.data.with_grant_option
          = s.data.with_grant_option) := by
  obtain ⟨d, m, v, hgen, hv⟩ := Create_success env s hok
  have hcreate := Create_encoded env s v d m hgen hv
  rw [henc] at hv
  have hround : grantIDFromString v = .ok (createdID s.data) := by
    obtain ⟨v2, h1, h2⟩ := grantIDFromString_String (createdID s.data)
    rw [hv] at h1
    injection h1 with h1
    rw [h1]
    exact h2
  have hd : env.grantIDFromString
      ({ data := d.SetId v, meta := m,
         calls := s.calls ++
           [Call.createGenericGrant (snowflake.ResourceMonitorGrant s.data.monitor_name),
            Call.grantIDString (createdID s.data), Call.SetId v] } : State W).data.id
      = .ok (createdID s.data) := by
    rw [hdec]
    exact hround
  rw [hcreate] at hok
  have hw := Read_writes_of_success env _ (createdID s.data) hd hok
  have hread := Read_decoded env _ (createdID s.data) hd hw
  refine ⟨v, hv, hround, ?_, ?_⟩
  · rw [hcreate, hread]
    simp [newCalls, readCalls, createdID, ResourceData.SetId]
  · intro hkeep
    rw [hcreate, hread]
    obtain ⟨k1, k2, k3⟩ := hkeep (decodedData (d.SetId v) (createdID s.data)) m
      (snowflake.ResourceMonitorGrant (createdID s.data).ResourceName)
    exact ⟨k1, k2, k3⟩

/-- The statement of claim C2 at a monitor whose name contains the delimiter. -/
theorem CreateResourceMonitorGrant_roundtrip_witness :
    (CreateResourceMonitorGrant specEnv
      { data := { monitor_name := "WH|1", privilege := "MONITOR", roles := ["ANALYST"],
                  with_grant_option := true },
        meta := { objects := ["WH|1"] } }).1 = none ∧
    (CreateResourceMonitorGrant specEnv
      { data := { monitor_name := "WH|1", privilege := "MONITOR", roles := ["ANALYST"],
                  with_grant_option := true },
        meta := { objects := ["WH|1"] } }).2.data.monitor_name = "WH|1" ∧
    (CreateResourceMonitorGrant specEnv
      { data := { monitor_name := "WH|1", privilege := "MONITOR", roles := ["ANALYST"],
                  with_grant_option := true },
        meta := { objects := ["WH|1"] } }).2.data.privilege = "MONITOR" ∧
    (CreateResourceMonitorGrant specEnv
      { data := { monitor_name := "WH|1", privilege := "MONITOR", roles := ["ANALYST"],
                  with_grant_option := true },
        meta := { objects := ["WH|1"] } }).2.data.with_grant_option = true :=
  ⟨by decide,
   (CreateResourceMonitorGrant_roundtrip specEnv
      { data := { monitor_name := "WH|1", privilege := "MONITOR", roles := ["ANALYST"],
                  with_grant_option := true },
        meta := { objects := ["WH|1"] } }
      rfl rfl (by decide)).elim (fun _ h => h.2.2.2 specEnv_readKeepsIdentity)⟩

/-! ## Lower-casing and the validator of the privilege field -/

theorem lowerRanges_sound : lowerRanges.all rangeSound = true := by decide

theorem toNat_ofNat_valid (n : Nat) (h : n.isValidChar) : (Char.ofNat n).toNat = n := by
  unfold Char.ofNat
  rw [dif_pos h]
  rfl

theorem char_eq_of_toNat {c d : Char} (h : c.toNat = d.toNat) : c = d := by
  rw [← Char.ofNat_toNat c, ← Char.ofNat_toNat d, h]

theorem char_toNat_valid (c : Char) : c.toNat.isValidChar := c.valid

theorem lowerCodePoint_spec (n : Nat) (hn : n.isValidChar) (h128 : 128 ≤ n) :
    (lowerCodePoint n).isValidChar ∧
    (lowerCodePoint n < 128 →
      (n = 304 ∧ lowerCodePoint n = 105) ∨ (n = 8490 ∧ lowerCodePoint n = 107)) := by
  unfold lowerCodePoint
  cases hfind : lowerRanges.find? (inRange n) with
  | none =>
    dsimp only
    exact ⟨hn, fun h => by omega⟩
  | some e =>
    dsimp only
    have hmem : e ∈ lowerRanges := List.mem_of_find?_eq_some hfind
    have hin : inRange n e = true := List.find?_some hfind
    have hs : rangeSound e = true := List.all_eq_true.mp lowerRanges_sound e hmem
    obtain ⟨lo, hi, st, dst⟩ := e
    simp only [inRange, rangeSound, Bool.and_eq_true, Bool.or_eq_true, decide_eq_true_eq,
      Prod.mk.injEq] at hin hs
    simp only [Nat.isValidChar]
    obtain ⟨⟨h1, h2⟩, -⟩ := hin
    obtain ⟨hs1, hs2⟩ := hs
    constructor
    · omega
    · intro h
      rcases hs1 with (hs1 | ⟨a, b, c, d⟩) | ⟨a, b, c, d⟩
      · omega
      · left; omega
      · right; omega

theorem lowerChar_toNat_ascii (c : Char) (h : c.toNat < 128) :
    (lowerChar c).toNat = if 65 ≤ c.toNat ∧ c.toNat ≤ 90 then c.toNat + 32 else c.toNat := by
  unfold lowerChar
  rw [if_pos h]
  split
  · rename_i hc
    exact toNat_ofNat_valid _ (Or.inl (by omega))
  · rfl

theorem lowerChar_toNat_large (c : Char) (h : ¬ c.toNat < 128) :
    (lowerChar c).toNat = lowerCodePoint c.toNat := by
  unfold lowerChar
  rw [if_neg h]
  exact toNat_ofNat_valid _ (lowerCodePoint_spec c.toNat (char_toNat_valid c) (by omega)).1

theorem sameLetter_iff (c d : Char) :
    sameLetter c d = true ↔
      c.toNat = d.toNat ∨ (65 ≤ c.toNat ∧ c.toNat ≤ 90 ∧ d.toNat = c.toNat + 32) ∨
        (65 ≤ d.toNat ∧ d.toNat ≤ 90 ∧ c.toNat = d.toNat + 32) := by
  simp only [sameLetter, casePair, Bool.or_eq_true, decide_eq_true_eq]
  constructor
  · rintro ((h | h) | h)
    · exact Or.inl (by rw [h])
    · exact Or.inr (Or.inl h)
    · exact Or.inr (Or.inr h)
  · rintro (h | h | h)
    · exact Or.inl (Or.inl (char_eq_of_toNat h))
    · exact Or.inl (Or.inr h)
    · exact Or.inr h

theorem char_eq_iff_toNat (c d : Char) : c = d ↔ c.toNat = d.toNat :=
  ⟨fun h => by rw [h], char_eq_of_toNat⟩

theorem lowersToLetter_iff (c d : Char) :
    lowersToLetter c d = true ↔
      (c.toNat = 304 ∧ (d.toNat = 73 ∨ d.toNat = 105)) ∨
        (c.toNat = 8490 ∧ (d.toNat = 75 ∨ d.toNat = 107)) := by
  simp only [lowersToLetter, Bool.or_eq_true, Bool.and_eq_true, decide_eq_true_eq,
    char_eq_iff_toNat d]
  rfl

theorem lowerChar_eq_iff (c d : Char) (hd : d.toNat < 128) :
    lowerChar c = lowerChar d ↔ (sameLetter c d || lowersToLetter c d) = true := by
  rw [Bool.or_eq_true, sameLetter_iff, lowersToLetter_iff, char_eq_iff_toNat,
    lowerChar_toNat_ascii d hd]
  by_cases hc : c.toNat < 128
  · rw [lowerChar_toNat_ascii c hc]
    split <;> split <;> omega
  · rw [lowerChar_toNat_large c hc]
    have hspec := (lowerCodePoint_spec c.toNat (char_toNat_valid c) (by omega)).2
    constructor
    · intro h
      have hlt : lowerCodePoint c.toNat < 128 := by
        rw [h]; split <;> omega
      rcases hspec hlt with ⟨h1, h2⟩ | ⟨h1, h2⟩
      · rw [h2] at h
        right; left
        refine ⟨h1, ?_⟩
        split at h <;> omega
      · rw [h2] at h
        right; right
        refine ⟨h1, ?_⟩
        split at h <;> omega
    · rintro ((h | h | h) | ⟨h1, h2⟩ | ⟨h1, h2⟩)
      · omega
      · omega
      · omega
      · have h3 : lowerCodePoint c.toNat = 105 := by rw [h1]; decide
        rw [h3]
        split <;> omega
      · have h3 : lowerCodePoint c.toNat = 107 := by rw [h1]; decide
        rw [h3]
        split <;> omega

theorem map_lowerChar_eq_iff (v t : List Char) (ht : ∀ d ∈ t, d.toNat < 128) :
    v.map lowerChar = t.map lowerChar ↔
      matchesWith (fun c d => sameLetter c d || lowersToLetter c d) v t = true := by
  induction v generalizing t with
  | nil => cases t <;> simp [matchesWith]
  | cons c cs ih =>
    cases t with
    | nil => simp [matchesWith]
    | cons d ds =>
      have hd : d.toNat < 128 := ht d (List.mem_cons_self d ds)
      have hds : ∀ x ∈ ds, x.toNat < 128 := fun x hx => ht x (List.mem_cons_of_mem d hx)
      simp only [List.map_cons, List.cons.injEq, matchesWith, Bool.and_eq_true]
      rw [lowerChar_eq_iff c d hd, ih ds hds]

theorem toLower_eq_iff (v t : String) (ht : ∀ d ∈ t.data, d.toNat < 128) :
    toLower v = toLower t ↔ equalsAfterLowering v t = true := by
  unfold toLower equalsAfterLowering
  rw [← map_lowerChar_eq_iff v.data t.data ht]
  exact ⟨fun h => congrArg String.data h, fun h => congrArg String.mk h⟩

theorem matchesWith_congr (r q : Char → Char → Bool) (v t : List Char)
    (h : ∀ c ∈ v, ∀ d ∈ t, r c d = q c d) : matchesWith r v t = matchesWith q v t := by
  induction v generalizing t with
  | nil => cases t <;> rfl
  | cons c cs ih =>
    cases t with
    | nil => rfl
    | cons d ds =>
      simp only [matchesWith]
      rw [h c (List.mem_cons_self c cs) d (List.mem_cons_self d ds),
        ih ds (fun x hx y hy => h x (List.mem_cons_of_mem c hx) y (List.mem_cons_of_mem d hy))]

theorem matchesWith_mono (r q : Char → Char → Bool) (v t : List Char)
    (h : ∀ c d, r c d = true → q c d = true) (hm : matchesWith r v t = true) :
    matchesWith q v t = true := by
  induction v generalizing t with
  | nil => cases t <;> simp_all [matchesWith]
  | cons c cs ih =>
    cases t with
    | nil => simp [matchesWith] at hm
    | cons d ds =>
      simp only [matchesWith, Bool.and_eq_true] at hm ⊢
      exact ⟨h c d hm.1, ih ds hm.2⟩

theorem tokens_ascii :
    ∀ t ∈ validResourceMonitorPrivileges.toList, ∀ d ∈ t.data,
      d.toNat < 128 ∧ d.toNat ≠ 75 ∧ d.toNat ≠ 107 := by
  decide

theorem StringInSlice_iff_toLower (valid : List String) (v : String) :
    StringInSlice valid true v = true ↔ ∃ t, t ∈ valid ∧ toLower v = toLower t := by
  simp only [StringInSlice, List.any_eq_true, Bool.or_eq_true, Bool.and_eq_true, beq_iff_eq,
    true_and]
  constructor
  · rintro ⟨t, ht, h | h⟩
    · exact ⟨t, ht, by rw [h]⟩
    · exact ⟨t, ht, h⟩
  · rintro ⟨t, ht, h⟩
    exact ⟨t, ht, Or.inr h⟩

theorem equalsAfterLowering_eq_equalsIgnoringCase (v t : String)
    (hv : ∀ c ∈ v.data, c.toNat ≠ 304)
    (ht : ∀ d ∈ t.data, d.toNat ≠ 75 ∧ d.toNat ≠ 107) :
    equalsAfterLowering v t = equalsIgnoringCase v t := by
  unfold equalsAfterLowering equalsIgnoringCase
  apply matchesWith_congr
  intro c hc d hd
  have hfalse : lowersToLetter c d = false := by
    rw [← Bool.not_eq_true, lowersToLetter_iff]
    have h1 := hv c hc
    have h2 := ht d hd
    omega
  rw [hfalse, Bool.or_false]

/-! ## The schema -/

/-- Claim C7, as the code has it: the tokens of `validResourceMonitorPrivileges.toList()`
are `privilegeAll`, `privilegeModify` and `privilegeMonitor`, in that order, and the
validator of the `privilege` field accepts a string if and only if `strings.ToLower`
gives the same string for it and for one of the tokens.  That is: it accepts every
string that equals a token ignoring letter case; it accepts no other string in
which U+0130 does not occur; and it accepts a string with U+0130 exactly when the
string equals a token ignoring letter case once U+0130 is read as an I (and
U+212A, the Kelvin sign, as a K, which no token has).  So it
accepts `monitor`, `Modify` and `aLL`, rejects `MONITORS`, `MONITO` and the empty
string, and accepts MONITOR written with U+0130 for its I. -/
theorem privilege_validator_accepts_iff :
    validResourceMonitorPrivileges.toList = [privilegeAll, privilegeModify, privilegeMonitor] ∧
    ∃ f, (lookupField resourceMonitorGrantSchema "privilege").bind (fun x => x.ValidateFunc)
        = some f ∧
      (∀ v : String, f v = true ↔
        ∃ t, t ∈ validResourceMonitorPrivileges.toList ∧ equalsAfterLowering v t = true) ∧
      (∀ v : String,
        (∃ t, t ∈ validResourceMonitorPrivileges.toList ∧ equalsIgnoringCase v t = true) →
          f v = true) ∧
      (∀ v : String, (∀ c ∈ v.data, c.toNat ≠ 304) →
        (f v = true ↔
          ∃ t, t ∈ validResourceMonitorPrivileges.toList ∧ equalsIgnoringCase v t = true)) ∧
      f "monitor" = true ∧ f "Modify" = true ∧ f "aLL" = true ∧
      f "MONITORS" = false ∧ f "MONITO" = false ∧ f "" = false ∧
      f (String.mk ['M', 'O', 'N', Char.ofNat 304, 'T', 'O', 'R']) = true := by
  have hiff : ∀ v : String,
      StringInSlice validResourceMonitorPrivileges.toList true v = true ↔
        ∃ t, t ∈ validResourceMonitorPrivileges.toList ∧ equalsAfterLowering v t = true := by
    intro v
    rw [StringInSlice_iff_toLower]
    constructor
    · rintro ⟨t, ht, h⟩
      exact ⟨t, ht, (toLower_eq_iff v t (fun d hd => (tokens_ascii t ht d hd).1)).mp h⟩
    · rintro ⟨t, ht, h⟩
      exact ⟨t, ht, (toLower_eq_iff v t (fun d hd => (tokens_ascii t ht d hd).1)).mpr h⟩
  refine ⟨by decide, StringInSlice validResourceMonitorPrivileges.toList true, rfl, hiff, ?_, ?_,
    by decide, by decide, by decide, by decide, by decide, by decide, by decide⟩
  · rintro v ⟨t, ht, h⟩
    refine (hiff v).mpr ⟨t, ht, ?_⟩
    exact matchesWith_mono sameLetter _ v.data t.data
      (fun c d hcd => by rw [hcd, Bool.true_or]) h
  · intro v hv
    rw [hiff v]
    constructor
    · rintro ⟨t, ht, h⟩
      refine ⟨t, ht, ?_⟩
      rw [← equalsAfterLowering_eq_equalsIgnoringCase v t hv
        (fun d hd => (tokens_ascii t ht d hd).2)]
      exact h
    · rintro ⟨t, ht, h⟩
      refine ⟨t, ht, ?_⟩
      rw [equalsAfterLowering_eq_equalsIgnoringCase v t hv
        (fun d hd => (tokens_ascii t ht d hd).2)]
      exact h

/-- Claim C7 fails: the validator of the `privilege` field accepts MONITOR written
with U+0130 (capital I with dot above) in place of its I, because `strings.ToLower`
lowers U+0130 to `i`; that string equals none of the tokens ignoring letter case,
since U+0130 and I are two capital letters. -/
theorem privilege_validator_dotted_I_counterexample :
    "MONİTOR".data = ['M', 'O', 'N', Char.ofNat 304, 'T', 'O', 'R'] ∧
    toLower "MONİTOR" = "monitor" ∧
    ((lookupField resourceMonitorGrantSchema "privilege").bind (fun x => x.ValidateFunc)).map
        (fun f => f "MONİTOR") = some true ∧
    validResourceMonitorPrivileges.toList.any (fun t => equalsIgnoringCase "MONİTOR" t)
      = false := by
  decide

/-- Claim C8, as the code has it: every field of the schema, `roles` included, is
marked force-new, and the resource has a create, a read and a delete function and
no update function. -/
theorem resourceMonitorGrantSchema_all_force_new :
    resourceMonitorGrantSchema.map (fun kv => (kv.1, kv.2.ForceNew)) =
      [("monitor_name", true), ("privilege", true), ("roles", true),
       ("with_grant_option", true)] ∧
    ∀ W : Type,
      (ResourceMonitorGrant W).Update.isNone = true ∧
      (ResourceMonitorGrant W).Create.isSome = true ∧
      (ResourceMonitorGrant W).Read.isSome = true ∧
      (ResourceMonitorGrant W).Delete.isSome = true ∧
      (ResourceMonitorGrant W).Schema.map (fun kv => kv.1)
        = resourceMonitorGrantSchema.map (fun kv => kv.1) :=
  ⟨by decide, fun _ => ⟨rfl, rfl, rfl, rfl, rfl⟩⟩

/-- Claim C8 fails: the `roles` field of the schema is marked force-new. -/
theorem roles_force_new_counterexample :
    (lookupField resourceMonitorGrantSchema "roles").map (fun x => x.ForceNew) = some true := by
  decide

/-- Claim C9: the schema declares exactly four fields: `monitor_name`, a required
string; `privilege`, an optional string with default MONITOR, which is a member of
the resource-monitor privilege set; `roles`, an optional set of strings;
`with_grant_option`, an optional boolean with default false. -/
theorem resourceMonitorGrantSchema_fields :
    resourceMonitorGrantSchema.map
        (fun kv => (kv.1, kv.2.type, kv.2.Elem, kv.2.Required, kv.2.Optional, kv.2.Default)) =
      [ ("monitor_name", ValueType.TypeString, none, true, false, none),
        ("privilege", ValueType.TypeString, none, false, true, some (Value.str "MONITOR")),
        ("roles", ValueType.TypeSet, some ValueType.TypeString, false, true, none),
        ("with_grant_option", ValueType.TypeBool, none, false, true,
          some (Value.bool false)) ] ∧
    "MONITOR" ∈ validResourceMonitorPrivileges.toList ∧
    validResourceMonitorPrivileges.contains "MONITOR" = true :=
  ⟨rfl, by decide, by decide⟩

end resources
